import Mathlib

/-!
Verification development for the cinema booking API.

The repository's visible source (`cinema/urls.py`, `cinema/admin.py`,
`cinema/tests/test_movie_api.py`) declares and exercises models, serializers
and views whose bodies live in `cinema/models.py`, `cinema/serializers.py`
and `cinema/views.py`, which are not part of the provided sources.  The
definitions below are therefore a shallow embedding of that missing layer,
modelled from the specification (`spec.md`) and constrained by the provided
tests: entities become structures, the persistent store becomes explicit
state passing, fallible operations return `Except`, and the HTTP surface
becomes a total `handle` function from authentication state, operation and
store to a new store and a response.
-/

namespace Cinema

/-- Text is modelled as a list of characters so that every operation on it
is executable and kernel-reducible. -/
abbrev Str := List Char

/-- Case folding of a text value, character by character. -/
def lowerStr (s : Str) : Str := s.map Char.toLower

/-- Modelled from the spec: case-insensitive substring matching needs a
prefix test; `startsWith n h` holds when `n` is an initial segment of `h`. -/
def startsWith : Str → Str → Bool
  | [], _ => true
  | _ :: _, [] => false
  | a :: as, b :: bs => a == b && startsWith as bs

/-- Modelled from the spec: `hasSubstr n h` holds when `n` occurs
contiguously inside `h` (the substring test behind the `title` filter of
`cinema/views.py`, absent from the provided sources). -/
def hasSubstr : Str → Str → Bool
  | n, [] => n.isEmpty
  | n, c :: rest => startsWith n (c :: rest) || hasSubstr n rest

/-- Declarative form of the substring relation, used to state claims. -/
def Substr (n h : Str) : Prop := ∃ pre post, h = pre ++ n ++ post

/-- Numeric value of a decimal digit character, `none` on other characters. -/
def digitVal? (c : Char) : Option Nat :=
  if '0' ≤ c ∧ c ≤ '9' then some (c.toNat - '0'.toNat) else none

/-- Modelled from the spec: decimal parsing of one query-parameter token;
malformed tokens yield `none`. -/
def natOfStr? (s : Str) : Option Nat :=
  if s = [] then none
  else s.foldl (fun acc c =>
    match acc, digitVal? c with
    | some n, some d => some (n * 10 + d)
    | _, _ => none) (some 0)

/-- Splitting a raw query-parameter value at commas. -/
def splitComma : Str → List Str
  | [] => [[]]
  | c :: rest =>
    if c = ',' then [] :: splitComma rest
    else
      match splitComma rest with
      | [] => [[c]]
      | s :: ss => (c :: s) :: ss

/-- Modelled from the spec: ids are extracted from a comma-separated raw
value; unknown or malformed tokens are dropped silently. -/
def parseIds (s : Str) : List Nat := (splitComma s).filterMap natOfStr?

/-- Modelled from the spec: `cinema/models.py` declares `CinemaHall` with a
name and a grid of `rows × seats_in_row` seats. -/
structure CinemaHall where
  id : Nat
  name : Str
  rows : Nat
  seats_in_row : Nat
deriving DecidableEq, Repr

/-- Modelled from the spec: `Genre` has a unique name. -/
structure Genre where
  id : Nat
  name : Str
deriving DecidableEq, Repr

/-- Modelled from the spec: `Actor` has a first and a last name. -/
structure Actor where
  id : Nat
  first_name : Str
  last_name : Str
deriving DecidableEq, Repr

/-- Modelled from the spec: `Movie` carries scalar fields, many-to-many
genre and actor associations (kept as id lists) and an optional image
asset. -/
structure Movie where
  id : Nat
  title : Str
  description : Str
  duration : Nat
  genres : List Nat
  actors : List Nat
  image : Option Str
deriving DecidableEq, Repr

/-- Modelled from the spec: `MovieSession` schedules a movie in a hall; the
hall object is embedded, as the ORM exposes it through the foreign key. -/
structure MovieSession where
  id : Nat
  show_time : Str
  movie : Nat
  cinema_hall : CinemaHall
deriving DecidableEq, Repr

/-- Modelled from the spec: an `Order` groups the tickets of one booking
request of one user. -/
structure Order where
  id : Nat
  user : Nat
deriving DecidableEq, Repr

/-- Modelled from the spec: a `Ticket` occupies seat `(row, seat)` of the
hall of movie session `movie_session`, inside order `order`. -/
structure Ticket where
  row : Nat
  seat : Nat
  movie_session : Nat
  order : Nat
deriving DecidableEq, Repr

/-- The persistent relational store, reduced to the tables the claims are
about. -/
structure Store where
  movies : List Movie
  sessions : List MovieSession
  orders : List Order
  tickets : List Ticket
deriving DecidableEq, Repr

/-- The empty store, the initial state of the system. -/
def Store.empty : Store := ⟨[], [], [], []⟩

/-- Field names used in structured validation errors. -/
inductive FieldName where
  | rowField
  | seatField
  | sessionField
  | imageField
  | detailField
deriving DecidableEq, Repr

/-- Modelled from the spec: validation failures of a candidate ticket.
`seatTakenErr` is the conflict raised when the seat is already booked. -/
inductive BookingError where
  | rowOutOfRange (row rows : Nat)
  | seatOutOfRange (seat seatsInRow : Nat)
  | seatTakenErr (row seat : Nat)
deriving DecidableEq, Repr

/-- The field a booking error names, per the spec's structured
field-level messages. -/
def BookingError.field : BookingError → FieldName
  | .rowOutOfRange _ _ => .rowField
  | .seatOutOfRange _ _ => .seatField
  | .seatTakenErr _ _ => .seatField

/-- Whether some existing ticket already occupies `(row, seat)` on the
session with id `sid`. -/
def seatTaken (ts : List Ticket) (sid row seat : Nat) : Bool :=
  ts.any fun t => t.movie_session == sid && t.row == row && t.seat == seat

/-- Modelled from the spec: the validation layer for one candidate ticket —
`row` within `[1, hall.rows]`, `seat` within `[1, hall.seats_in_row]`, and
no existing ticket of the same session on the same `(row, seat)`. -/
def validateTicket (sess : MovieSession) (ts : List Ticket) (row seat : Nat) :
    Except BookingError Unit :=
  if row < 1 ∨ sess.cinema_hall.rows < row then
    .error (.rowOutOfRange row sess.cinema_hall.rows)
  else if seat < 1 ∨ sess.cinema_hall.seats_in_row < seat then
    .error (.seatOutOfRange seat sess.cinema_hall.seats_in_row)
  else if seatTaken ts sess.id row seat then
    .error (.seatTakenErr row seat)
  else
    .ok ()

/-- One requested ticket inside a booking request. -/
structure TicketRequest where
  row : Nat
  seat : Nat
  movie_session : Nat
deriving DecidableEq, Repr

/-- Errors of a whole booking request. -/
inductive OrderError where
  | sessionNotFound (sid : Nat)
  | invalid (e : BookingError)
deriving DecidableEq, Repr

/-- The field an order error names. -/
def OrderError.field : OrderError → FieldName
  | .sessionNotFound _ => .sessionField
  | .invalid e => e.field

/-- Looking a session up by id. -/
def findSession (s : Store) (sid : Nat) : Option MovieSession :=
  s.sessions.find? fun m => m.id == sid

/-- Looking a movie up by id. -/
def findMovie (s : Store) (mid : Nat) : Option Movie :=
  s.movies.find? fun m => m.id == mid

/-- Modelled from the spec: the body of the booking transaction.  Tickets
are validated and inserted one at a time into the working store, so each
validation also sees the tickets inserted earlier in the same request; the
first failure aborts with an error. -/
def insertTickets (orderId : Nat) : Store → List TicketRequest → Except OrderError Store
  | s, [] => .ok s
  | s, r :: rs =>
    match findSession s r.movie_session with
    | none => .error (.sessionNotFound r.movie_session)
    | some sess =>
      match validateTicket sess s.tickets r.row r.seat with
      | .error e => .error (.invalid e)
      | .ok _ =>
        insertTickets orderId
          { s with tickets := s.tickets ++ [⟨r.row, r.seat, r.movie_session, orderId⟩] } rs

/-- Modelled from the spec: transactional order creation — either all
tickets of the request are inserted together with a fresh order, or the
transaction rolls back and the store is returned unchanged. -/
def createOrder (s : Store) (userId : Nat) (reqs : List TicketRequest) :
    Store × Except OrderError Unit :=
  match insertTickets s.orders.length s reqs with
  | .error e => (s, .error e)
  | .ok s' => ({ s' with orders := s'.orders ++ [⟨s.orders.length, userId⟩] }, .ok ())

/-- A parsed movie-list query: each filter is absent or a value. -/
structure Query where
  title : Option Str
  genres : Option (List Nat)
  actors : Option (List Nat)
deriving DecidableEq, Repr

/-- A raw movie-list query as it arrives on the wire. -/
structure RawQuery where
  title : Option Str
  genres : Option Str
  actors : Option Str
deriving DecidableEq, Repr

/-- Modelled from the spec: raw id-list values are parsed token by token,
malformed tokens are dropped, and a value with no usable id is ignored as
if the filter were absent. -/
def parseIdFilter : Option Str → Option (List Nat)
  | none => none
  | some s =>
    let ids := parseIds s
    if ids = [] then none else some ids

/-- Parsing of the whole raw query. -/
def parseQuery (r : RawQuery) : Query :=
  { title := r.title, genres := parseIdFilter r.genres, actors := parseIdFilter r.actors }

/-- Case-insensitive substring match of the title filter. -/
def containsCI (needle haystack : Str) : Bool :=
  hasSubstr (lowerStr needle) (lowerStr haystack)

/-- Whether a movie is associated with any of the given ids (OR semantics
across ids of one filter kind). -/
def matchesAny (ids assoc : List Nat) : Bool :=
  ids.any fun i => assoc.contains i

/-- Modelled from the spec: the query/filter layer of the movie list.  Each
supplied filter narrows the collection independently (logical AND between
filter kinds); an absent filter keeps the collection whole. -/
def applyFilters (q : Query) (ms : List Movie) : List Movie :=
  let byTitle :=
    match q.title with
    | none => ms
    | some t => ms.filter fun m => containsCI t m.title
  let byGenres :=
    match q.genres with
    | none => byTitle
    | some gs => byTitle.filter fun m => matchesAny gs m.genres
  match q.actors with
  | none => byGenres
  | some as => byGenres.filter fun m => matchesAny as m.actors

/-- Modelled from the spec: the three authorization states. -/
inductive AuthState where
  | anon
  | regular (userId : Nat)
  | staff (userId : Nat)
deriving DecidableEq, Repr

/-- Whether the caller presented credentials. -/
def AuthState.isAuthenticated : AuthState → Bool
  | .anon => false
  | _ => true

/-- Whether the caller is a staff user. -/
def AuthState.isStaff : AuthState → Bool
  | .staff _ => true
  | _ => false

/-- The user id of an authenticated caller (0 for the anonymous state,
which never reaches a handler body). -/
def AuthState.userId : AuthState → Nat
  | .anon => 0
  | .regular u => u
  | .staff u => u

/-- Payload of the generic create-movie endpoint; `image` is raw image
data a client may try to smuggle alongside the movie fields. -/
structure MoviePayload where
  title : Str
  description : Str
  duration : Nat
  genres : List Nat
  actors : List Nat
  image : Option Str
deriving DecidableEq, Repr

/-- Payload of a create-session request. -/
structure SessionPayload where
  show_time : Str
  movie : Nat
  cinema_hall : CinemaHall
deriving DecidableEq, Repr

/-- Payload of the dedicated image-upload endpoint: either a valid image
file or a non-image payload. -/
inductive UploadPayload where
  | jpeg (data : Str)
  | notImage (data : Str)
deriving DecidableEq, Repr

/-- The operations of the HTTP surface the claims are about. -/
inductive Operation where
  | listMovies (q : RawQuery)
  | retrieveMovie (id : Nat)
  | createMovie (p : MoviePayload)
  | uploadImage (id : Nat) (p : UploadPayload)
  | createSession (p : SessionPayload)
  | placeOrder (reqs : List TicketRequest)
deriving DecidableEq, Repr

/-- Response bodies of the modelled endpoints. -/
inductive Body where
  | movies (ms : List Movie)
  | movieDetail (m : Movie)
  | createdMovie (m : Movie)
  | createdSession (sess : MovieSession)
  | imageOf (img : Option Str)
  | orderOk
  | fieldError (f : FieldName)
  | authError
deriving DecidableEq, Repr

/-- An HTTP response: a numeric status and a body. -/
structure Response where
  status : Nat
  body : Body
deriving DecidableEq, Repr

/-- Modelled from the spec: a movie created through the generic endpoint
takes every scalar field and association from the payload, but its image
field is never written there. -/
def movieFromPayload (mid : Nat) (p : MoviePayload) : Movie :=
  { id := mid, title := p.title, description := p.description,
    duration := p.duration, genres := p.genres, actors := p.actors, image := none }

/-- Setting the image of the movie with id `mid`. -/
def updateImage (ms : List Movie) (mid : Nat) (img : Str) : List Movie :=
  ms.map fun m => if m.id == mid then { m with image := some img } else m

/-- Modelled from the spec: the request dispatcher.  Anonymous callers are
rejected with 401 on every operation; catalog writes require staff (403
otherwise); reads return 200, creations 201, validation failures 400,
unknown ids 404. -/
def handle (a : AuthState) (op : Operation) (s : Store) : Store × Response :=
  if a.isAuthenticated = false then (s, ⟨401, .authError⟩)
  else
    match op with
    | .listMovies q => (s, ⟨200, .movies (applyFilters (parseQuery q) s.movies)⟩)
    | .retrieveMovie mid =>
      match findMovie s mid with
      | some m => (s, ⟨200, .movieDetail m⟩)
      | none => (s, ⟨404, .fieldError .detailField⟩)
    | .createMovie p =>
      if a.isStaff = false then (s, ⟨403, .fieldError .detailField⟩)
      else
        let m := movieFromPayload s.movies.length p
        ({ s with movies := s.movies ++ [m] }, ⟨201, .createdMovie m⟩)
    | .uploadImage mid p =>
      if a.isStaff = false then (s, ⟨403, .fieldError .detailField⟩)
      else
        match findMovie s mid with
        | none => (s, ⟨404, .fieldError .detailField⟩)
        | some _ =>
          match p with
          | .jpeg d => ({ s with movies := updateImage s.movies mid d }, ⟨200, .imageOf (some d)⟩)
          | .notImage _ => (s, ⟨400, .fieldError .imageField⟩)
    | .createSession p =>
      if a.isStaff = false then (s, ⟨403, .fieldError .detailField⟩)
      else
        let sess : MovieSession :=
          ⟨s.sessions.length, p.show_time, p.movie, p.cinema_hall⟩
        ({ s with sessions := s.sessions ++ [sess] }, ⟨201, .createdSession sess⟩)
    | .placeOrder reqs =>
      match createOrder s a.userId reqs with
      | (s', .ok _) => (s', ⟨201, .orderOk⟩)
      | (s', .error e) => (s', ⟨400, .fieldError e.field⟩)

/-- The stores reachable from the empty store through the API. -/
inductive Reachable : Store → Prop where
  | init : Reachable Store.empty
  | step (a : AuthState) (op : Operation) {s : Store} :
      Reachable s → Reachable (handle a op s).1

/-- Two tickets book the same seat of the same session. -/
def sameSeat (a b : Ticket) : Prop :=
  a.movie_session = b.movie_session ∧ a.row = b.row ∧ a.seat = b.seat

/-- The no-duplicate-seat invariant on the ticket table. -/
def NoDupSeats (ts : List Ticket) : Prop :=
  List.Pairwise (fun a b => ¬ sameSeat a b) ts

/-- A small hall used to instantiate theorems on concrete data. -/
def demoHall : CinemaHall := ⟨0, ['B'], 5, 6⟩

/-- A session in the demo hall. -/
def demoSession : MovieSession := ⟨0, [], 0, demoHall⟩

/-- A movie used to instantiate theorems on concrete data. -/
def demoMovie : Movie := ⟨0, ['M'], [], 90, [], [], none⟩

/-- A store holding the demo movie, the demo session and one ticket on
seat (2, 3) of the demo session. -/
def demoStore : Store := ⟨[demoMovie], [demoSession], [⟨0, 1⟩], [⟨2, 3, 0, 0⟩]⟩

/-- A session-creation payload for the demo hall. -/
def demoSessionPayload : SessionPayload := ⟨[], 0, demoHall⟩

/-- A movie-creation payload that smuggles image data along. -/
def demoMoviePayload : MoviePayload := ⟨['T'], ['D'], 90, [2], [3], some ['J']⟩

theorem startsWith_iff (n h : Str) : startsWith n h = true ↔ ∃ t, h = n ++ t := by
  induction n generalizing h with
  | nil => simp [startsWith]
  | cons a as ih =>
    cases h with
    | nil => simp [startsWith]
    | cons b bs =>
      simp only [startsWith, Bool.and_eq_true, beq_iff_eq, ih]
      constructor
      · rintro ⟨rfl, t, rfl⟩; exact ⟨t, rfl⟩
      · rintro ⟨t, heq⟩
        injection heq with h1 h2
        exact ⟨h1.symm, t, h2⟩

theorem hasSubstr_iff (n h : Str) :
    hasSubstr n h = true ↔ ∃ pre post, h = pre ++ n ++ post := by
  induction h with
  | nil =>
    simp only [hasSubstr, List.isEmpty_iff]
    constructor
    · rintro rfl; exact ⟨[], [], rfl⟩
    · rintro ⟨pre, post, heq⟩
      exact (List.append_eq_nil.mp (List.append_eq_nil.mp heq.symm).1).2
  | cons c rest ih =>
    simp only [hasSubstr, Bool.or_eq_true, ih, startsWith_iff]
    constructor
    · rintro (⟨t, heq⟩ | ⟨pre, post, heq⟩)
      · exact ⟨[], t, by simp [heq]⟩
      · exact ⟨c :: pre, post, by simp [heq]⟩
    · rintro ⟨pre, post, heq⟩
      cases pre with
      | nil => exact Or.inl ⟨post, by simpa using heq⟩
      | cons p ps =>
        right
        injection heq with h1 h2
        exact ⟨ps, post, h2⟩

theorem containsCI_iff (n h : Str) :
    containsCI n h = true ↔ Substr (lowerStr n) (lowerStr h) :=
  hasSubstr_iff (lowerStr n) (lowerStr h)

theorem matchesAny_iff (ids assoc : List Nat) :
    matchesAny ids assoc = true ↔ ∃ i ∈ ids, i ∈ assoc := by
  simp [matchesAny]

theorem mem_applyFilters (q : Query) (ms : List Movie) (m : Movie) :
    m ∈ applyFilters q ms ↔ m ∈ ms ∧
      (∀ t, q.title = some t → containsCI t m.title = true) ∧
      (∀ gs, q.genres = some gs → matchesAny gs m.genres = true) ∧
      (∀ as, q.actors = some as → matchesAny as m.actors = true) := by
  obtain ⟨t?, g?, a?⟩ := q
  cases t? <;> cases g? <;> cases a? <;>
    simp [applyFilters, List.mem_filter] <;> tauto

theorem validateTicket_ok_iff (sess : MovieSession) (ts : List Ticket) (row seat : Nat) :
    validateTicket sess ts row seat = .ok () ↔
      (1 ≤ row ∧ row ≤ sess.cinema_hall.rows ∧
       1 ≤ seat ∧ seat ≤ sess.cinema_hall.seats_in_row ∧
       seatTaken ts sess.id row seat = false) := by
  unfold validateTicket
  split_ifs with h1 h2 h3
  · simp only [reduceCtorEq, false_iff]
    rintro ⟨ha, hb, -⟩; omega
  · simp only [reduceCtorEq, false_iff]
    rintro ⟨-, -, hc, hd, -⟩; omega
  · simp only [reduceCtorEq, false_iff]
    rintro ⟨-, -, -, -, he⟩
    rw [h3] at he; exact Bool.noConfusion he
  · simp only [true_iff]
    push_neg at h1 h2
    refine ⟨by omega, by omega, by omega, by omega, ?_⟩
    cases hst : seatTaken ts sess.id row seat
    · rfl
    · exact absurd hst h3

theorem validateTicket_row_err (sess : MovieSession) (ts : List Ticket) (row seat : Nat)
    (h : row < 1 ∨ sess.cinema_hall.rows < row) :
    validateTicket sess ts row seat = .error (.rowOutOfRange row sess.cinema_hall.rows) := by
  unfold validateTicket
  rw [if_pos h]

theorem validateTicket_seat_err (sess : MovieSession) (ts : List Ticket) (row seat : Nat)
    (hr : ¬ (row < 1 ∨ sess.cinema_hall.rows < row))
    (h : seat < 1 ∨ sess.cinema_hall.seats_in_row < seat) :
    validateTicket sess ts row seat
      = .error (.seatOutOfRange seat sess.cinema_hall.seats_in_row) := by
  unfold validateTicket
  rw [if_neg hr, if_pos h]

theorem validateTicket_conflict (sess : MovieSession) (ts : List Ticket) (row seat : Nat)
    (hr : ¬ (row < 1 ∨ sess.cinema_hall.rows < row))
    (hs : ¬ (seat < 1 ∨ sess.cinema_hall.seats_in_row < seat))
    (ht : seatTaken ts sess.id row seat = true) :
    validateTicket sess ts row seat = .error (.seatTakenErr row seat) := by
  unfold validateTicket
  rw [if_neg hr, if_neg hs, if_pos ht]

theorem findSession_id (s : Store) (sid : Nat) (sess : MovieSession)
    (h : findSession s sid = some sess) : sess.id = sid := by
  have := List.find?_some h
  simpa [beq_iff_eq] using this

theorem seatTaken_false_no_sameSeat {ts : List Ticket} {sid row seat : Nat}
    (h : seatTaken ts sid row seat = false) (t : Ticket) (ht : t ∈ ts) (oid : Nat) :
    ¬ sameSeat t ⟨row, seat, sid, oid⟩ := by
  rw [seatTaken, List.any_eq_false] at h
  have h' := h t ht
  simp only [Bool.and_eq_true, beq_iff_eq] at h'
  rintro ⟨h1, h2, h3⟩
  apply h'
  tauto

theorem noDupSeats_append {ts : List Ticket} {nt : Ticket}
    (hnd : NoDupSeats ts) (hne : ∀ t ∈ ts, ¬ sameSeat t nt) :
    NoDupSeats (ts ++ [nt]) := by
  rw [NoDupSeats, List.pairwise_append]
  exact ⟨hnd, List.pairwise_singleton _ _, fun a ha b hb => by
    rw [List.mem_singleton] at hb
    subst hb
    exact hne a ha⟩

theorem insertTickets_ok_spec (oid : Nat) :
    ∀ (reqs : List TicketRequest) (s s' : Store),
      insertTickets oid s reqs = .ok s' →
      s'.movies = s.movies ∧ s'.sessions = s.sessions ∧ s'.orders = s.orders ∧
        s'.tickets = s.tickets ++ reqs.map fun r => ⟨r.row, r.seat, r.movie_session, oid⟩ := by
  intro reqs
  induction reqs with
  | nil =>
    intro s s' h
    rw [insertTickets] at h
    injection h with h
    subst h
    simp
  | cons r rs ih =>
    intro s s' h
    rw [insertTickets] at h
    split at h
    · exact absurd h (by simp)
    · split at h
      · exact absurd h (by simp)
      · obtain ⟨hm, hs2, ho, ht⟩ := ih _ _ h
        refine ⟨hm, hs2, ho, ?_⟩
        rw [ht]
        simp

theorem insertTickets_noDup (oid : Nat) :
    ∀ (reqs : List TicketRequest) (s s' : Store),
      insertTickets oid s reqs = .ok s' → NoDupSeats s.tickets → NoDupSeats s'.tickets := by
  intro reqs
  induction reqs with
  | nil =>
    intro s s' h hnd
    rw [insertTickets] at h
    injection h with h
    subst h
    exact hnd
  | cons r rs ih =>
    intro s s' h hnd
    rw [insertTickets] at h
    split at h
    · exact absurd h (by simp)
    · rename_i sess hfs
      split at h
      · exact absurd h (by simp)
      · rename_i u hv
        cases u
        have hok := (validateTicket_ok_iff sess s.tickets r.row r.seat).mp hv
        have hfree : seatTaken s.tickets r.movie_session r.row r.seat = false := by
          rw [← findSession_id s r.movie_session sess hfs]
          exact hok.2.2.2.2
        refine ih _ _ h ?_
        exact noDupSeats_append hnd fun t ht =>
          seatTaken_false_no_sameSeat hfree t ht oid

theorem createOrder_noDup (s : Store) (u : Nat) (reqs : List TicketRequest)
    (h : NoDupSeats s.tickets) : NoDupSeats ((createOrder s u reqs).1).tickets := by
  rw [createOrder]
  split
  · exact h
  · rename_i s' hins
    exact insertTickets_noDup s.orders.length reqs s s' hins h

theorem handle_noDup (a : AuthState) (op : Operation) (s : Store)
    (h : NoDupSeats s.tickets) : NoDupSeats ((handle a op s).1).tickets := by
  cases op with
  | listMovies q =>
    unfold handle
    by_cases hauth : a.isAuthenticated = false
    · rw [if_pos hauth]; exact h
    · rw [if_neg hauth]; exact h
  | retrieveMovie mid =>
    unfold handle
    by_cases hauth : a.isAuthenticated = false
    · rw [if_pos hauth]; exact h
    · rw [if_neg hauth]
      dsimp only
      cases findMovie s mid <;> exact h
  | createMovie p =>
    unfold handle
    by_cases hauth : a.isAuthenticated = false
    · rw [if_pos hauth]; exact h
    · rw [if_neg hauth]
      dsimp only
      by_cases hst : a.isStaff = false
      · rw [if_pos hst]; exact h
      · rw [if_neg hst]; exact h
  | uploadImage mid p =>
    unfold handle
    by_cases hauth : a.isAuthenticated = false
    · rw [if_pos hauth]; exact h
    · rw [if_neg hauth]
      dsimp only
      by_cases hst : a.isStaff = false
      · rw [if_pos hst]; exact h
      · rw [if_neg hst]
        cases findMovie s mid with
        | none => exact h
        | some m => cases p <;> exact h
  | createSession p =>
    unfold handle
    by_cases hauth : a.isAuthenticated = false
    · rw [if_pos hauth]; exact h
    · rw [if_neg hauth]
      dsimp only
      by_cases hst : a.isStaff = false
      · rw [if_pos hst]; exact h
      · rw [if_neg hst]; exact h
  | placeOrder reqs =>
    unfold handle
    by_cases hauth : a.isAuthenticated = false
    · rw [if_pos hauth]; exact h
    · rw [if_neg hauth]
      dsimp only
      have hco := createOrder_noDup s a.userId reqs h
      rcases hpair : createOrder s a.userId reqs with ⟨s', r⟩
      rw [hpair] at hco
      cases r with
      | ok u => exact hco
      | error e => exact hco

theorem reachable_noDupSeats {s : Store} (h : Reachable s) : NoDupSeats s.tickets := by
  induction h with
  | init => exact List.Pairwise.nil
  | step a op hr ih => exact handle_noDup a op _ ih

theorem createOrder_error_rollback (s : Store) (u : Nat) (reqs : List TicketRequest)
    (h : ∃ e, (createOrder s u reqs).2 = .error e) : (createOrder s u reqs).1 = s := by
  rw [createOrder] at h ⊢
  cases hins : insertTickets s.orders.length s reqs with
  | error e => rfl
  | ok s₁ =>
    rw [hins] at h
    obtain ⟨e, he⟩ := h
    simp at he

theorem createOrder_ok_spec (s : Store) (u : Nat) (reqs : List TicketRequest)
    (h : (createOrder s u reqs).2 = .ok ()) :
    (createOrder s u reqs).1.movies = s.movies ∧
      (createOrder s u reqs).1.sessions = s.sessions ∧
      (createOrder s u reqs).1.orders = s.orders ++ [⟨s.orders.length, u⟩] ∧
      (createOrder s u reqs).1.tickets =
        s.tickets ++ reqs.map fun r => ⟨r.row, r.seat, r.movie_session, s.orders.length⟩ := by
  rw [createOrder] at h ⊢
  cases hins : insertTickets s.orders.length s reqs with
  | error e =>
    rw [hins] at h
    simp at h
  | ok s₁ =>
    obtain ⟨hm, hs2, ho, ht⟩ := insertTickets_ok_spec s.orders.length reqs s s₁ hins
    dsimp only
    exact ⟨hm, hs2, by rw [ho], ht⟩

theorem find?_updateImage (ms : List Movie) (mid : Nat) (d : Str) :
    ((updateImage ms mid d).find? fun m => m.id == mid)
      = (ms.find? fun m => m.id == mid).map fun m => { m with image := some d } := by
  induction ms with
  | nil => rfl
  | cons m rest ih =>
    by_cases h : m.id = mid
    · simp [updateImage, List.find?_cons, h]
    · simp only [updateImage, List.map_cons] at ih ⊢
      rw [List.find?_cons, List.find?_cons]
      have h1 : (if m.id == mid then { m with image := some d } else m) = m := by
        simp [h]
      rw [h1]
      have h2 : (m.id == mid) = false := by simp [h]
      simp only [h2, cond_false]
      exact ih

/-- Claim C1: in every store reachable through the API, no two tickets of
the same movie session share a `(row, seat)` pair; and when a ticket
already occupies a valid `(row, seat)` of a session, a second booking of
the same seat fails with the seat-taken conflict error and the store is
unchanged. -/
theorem claim_C1_no_duplicate_seats :
    (∀ s : Store, Reachable s → NoDupSeats s.tickets) ∧
    (∀ (s : Store) (u sid row seat : Nat) (sess : MovieSession),
      findSession s sid = some sess →
      1 ≤ row → row ≤ sess.cinema_hall.rows →
      1 ≤ seat → seat ≤ sess.cinema_hall.seats_in_row →
      seatTaken s.tickets sid row seat = true →
      createOrder s u [⟨row, seat, sid⟩]
        = (s, .error (.invalid (.seatTakenErr row seat)))) := by
  constructor
  · exact fun s h => reachable_noDupSeats h
  · intro s u sid row seat sess hfs h1 h2 h3 h4 htk
    have hsid := findSession_id s sid sess hfs
    have hv : validateTicket sess s.tickets row seat = .error (.seatTakenErr row seat) :=
      validateTicket_conflict sess s.tickets row seat (by omega) (by omega)
        (by rw [hsid]; exact htk)
    have hins : insertTickets s.orders.length s [⟨row, seat, sid⟩]
        = .error (.invalid (.seatTakenErr row seat)) := by
      simp only [insertTickets, hfs, hv]
    rw [createOrder, hins]

/-- Witness for claim C1: a store reached by creating a session and then
booking seat (1, 1) satisfies the invariant, and on the concrete demo
store rebooking the occupied seat (2, 3) fails with the conflict error. -/
theorem claim_C1_witness :
    NoDupSeats ((handle (.regular 1) (.placeOrder [⟨1, 1, 0⟩])
      ((handle (.staff 0) (.createSession demoSessionPayload) Store.empty).1)).1).tickets ∧
    createOrder demoStore 1 [⟨2, 3, 0⟩]
      = (demoStore, .error (.invalid (.seatTakenErr 2 3))) := by
  constructor
  · exact claim_C1_no_duplicate_seats.1 _
      (Reachable.step (.regular 1) (.placeOrder [⟨1, 1, 0⟩])
        (Reachable.step (.staff 0) (.createSession demoSessionPayload) Reachable.init))
  · exact claim_C1_no_duplicate_seats.2 demoStore 1 0 2 3 demoSession (by decide)
      (by decide) (by decide) (by decide) (by decide) (by decide)

/-- Claim C2: on a free seat, ticket validation succeeds exactly when
`1 ≤ row ≤ hall.rows` and `1 ≤ seat ≤ hall.seats_in_row`; an out-of-range
row or seat is rejected with a validation error naming the offending
field and carrying the allowed bound. -/
theorem claim_C2_seat_bounds (sess : MovieSession) (ts : List Ticket) (row seat : Nat)
    (hfree : seatTaken ts sess.id row seat = false) :
    (validateTicket sess ts row seat = .ok () ↔
      (1 ≤ row ∧ row ≤ sess.cinema_hall.rows ∧
       1 ≤ seat ∧ seat ≤ sess.cinema_hall.seats_in_row)) ∧
    ((row < 1 ∨ sess.cinema_hall.rows < row) →
      validateTicket sess ts row seat
        = .error (.rowOutOfRange row sess.cinema_hall.rows) ∧
      (BookingError.rowOutOfRange row sess.cinema_hall.rows).field = .rowField) ∧
    (1 ≤ row → row ≤ sess.cinema_hall.rows →
      (seat < 1 ∨ sess.cinema_hall.seats_in_row < seat) →
      validateTicket sess ts row seat
        = .error (.seatOutOfRange seat sess.cinema_hall.seats_in_row) ∧
      (BookingError.seatOutOfRange seat sess.cinema_hall.seats_in_row).field = .seatField) := by
  refine ⟨?_, ?_, ?_⟩
  · rw [validateTicket_ok_iff]
    constructor
    · rintro ⟨a, b, c, d, -⟩; exact ⟨a, b, c, d⟩
    · rintro ⟨a, b, c, d⟩; exact ⟨a, b, c, d, hfree⟩
  · intro h
    exact ⟨validateTicket_row_err sess ts row seat h, rfl⟩
  · intro h1 h2 h3
    exact ⟨validateTicket_seat_err sess ts row seat (by omega) h3, rfl⟩

/-- Witness for claim C2: in the empty ticket table of the 5 × 6 demo
hall, seat (1, 1) is accepted, row 0 is rejected naming the row field,
and row 6 (one past the last row) is rejected as well. -/
theorem claim_C2_witness :
    seatTaken [] demoSession.id 1 1 = false ∧
    validateTicket demoSession [] 1 1 = .ok () ∧
    validateTicket demoSession [] 0 1
      = .error (.rowOutOfRange 0 demoSession.cinema_hall.rows) ∧
    validateTicket demoSession [] 6 1
      = .error (.rowOutOfRange 6 demoSession.cinema_hall.rows) := by
  refine ⟨by decide, ?_, ?_, ?_⟩
  · exact (claim_C2_seat_bounds demoSession [] 1 1 (by decide)).1.mpr
      (by decide)
  · exact ((claim_C2_seat_bounds demoSession [] 0 1 (by decide)).2.1
      (by decide)).1
  · exact ((claim_C2_seat_bounds demoSession [] 6 1 (by decide)).2.1
      (by decide)).1

/-- Claim C3: the booking request is atomic — when any requested ticket
fails, the transaction rolls back and the store is exactly the input
store; when it succeeds, every requested ticket is persisted, appended in
order under the fresh order id. -/
theorem claim_C3_order_atomic (s : Store) (u : Nat) (reqs : List TicketRequest) :
    ((∃ e, (createOrder s u reqs).2 = .error e) → (createOrder s u reqs).1 = s) ∧
    ((createOrder s u reqs).2 = .ok () →
      (createOrder s u reqs).1.tickets
        = s.tickets ++ reqs.map (fun r => ⟨r.row, r.seat, r.movie_session, s.orders.length⟩) ∧
      (createOrder s u reqs).1.orders = s.orders ++ [⟨s.orders.length, u⟩]) := by
  refine ⟨createOrder_error_rollback s u reqs, fun h => ?_⟩
  obtain ⟨-, -, ho, ht⟩ := createOrder_ok_spec s u reqs h
  exact ⟨ht, ho⟩

/-- Witness for claim C3: booking the occupied seat (2, 3) of the demo
store leaves the store unchanged, while booking the free seat (1, 1)
persists exactly the requested ticket. -/
theorem claim_C3_witness :
    (createOrder demoStore 1 [⟨2, 3, 0⟩]).1 = demoStore ∧
    (createOrder demoStore 1 [⟨1, 1, 0⟩]).1.tickets
      = demoStore.tickets ++ [⟨1, 1, 0, 1⟩] := by
  constructor
  · exact (claim_C3_order_atomic demoStore 1 [⟨2, 3, 0⟩]).1
      ⟨.invalid (.seatTakenErr 2 3), rfl⟩
  · exact ((claim_C3_order_atomic demoStore 1 [⟨1, 1, 0⟩]).2 rfl).1

/-- Claim C4: filtering the movie collection by a title query keeps
exactly the movies whose title contains the query as a case-insensitive
substring — every matching movie is kept and every other movie is
dropped. -/
theorem claim_C4_title_filter (t : Str) (ms : List Movie) (m : Movie) :
    m ∈ applyFilters ⟨some t, none, none⟩ ms ↔
      m ∈ ms ∧ Substr (lowerStr t) (lowerStr m.title) := by
  rw [mem_applyFilters]
  simp [containsCI_iff]

/-- Claim C5: the genre and actor filters have OR semantics across the ids
of one filter kind — a movie passes when it is associated with any of the
given ids — and supplying several filter kinds narrows the collection with
logical AND. -/
theorem claim_C5_id_filters (gs as : List Nat) (ms : List Movie) (m : Movie) :
    (m ∈ applyFilters ⟨none, some gs, some as⟩ ms ↔
      m ∈ ms ∧ (∃ g ∈ gs, g ∈ m.genres) ∧ (∃ a ∈ as, a ∈ m.actors)) ∧
    (m ∈ applyFilters ⟨none, some gs, none⟩ ms ↔
      m ∈ ms ∧ ∃ g ∈ gs, g ∈ m.genres) ∧
    (m ∈ applyFilters ⟨none, none, some as⟩ ms ↔
      m ∈ ms ∧ ∃ a ∈ as, a ∈ m.actors) := by
  refine ⟨?_, ?_, ?_⟩ <;> · rw [mem_applyFilters]; simp [matchesAny_iff]

/-- Claim C6: a movie-list request with no filter returns the whole
collection, and whatever the raw filter values are — malformed included —
the request succeeds with status 200 and leaves the store untouched; a
genre value with no parsable id is ignored as if the filter were absent. -/
theorem claim_C6_no_filter_and_malformed (u : Nat) (s : Store) (raw : RawQuery) (g : Str) :
    ((handle (.regular u) (.listMovies raw) s).2.status = 200) ∧
    ((handle (.regular u) (.listMovies raw) s).1 = s) ∧
    ((handle (.regular u) (.listMovies ⟨none, none, none⟩) s).2.body = .movies s.movies) ∧
    (parseIds g = [] →
      (handle (.regular u) (.listMovies ⟨none, some g, none⟩) s).2.body
        = .movies s.movies) := by
  refine ⟨rfl, rfl, rfl, fun hg => ?_⟩
  show Body.movies (applyFilters (parseQuery ⟨none, some g, none⟩) s.movies) = _
  simp [parseQuery, parseIdFilter, hg, applyFilters]

/-- Witness for claim C6: the raw value "zz" holds no parsable id, and the
filtered listing on the demo store still returns every movie. -/
theorem claim_C6_witness :
    parseIds ['z', 'z'] = [] ∧
    (handle (.regular 0) (.listMovies ⟨none, some ['z', 'z'], none⟩) demoStore).2.body
      = .movies demoStore.movies :=
  ⟨by decide,
   (claim_C6_no_filter_and_malformed 0 demoStore
      ⟨none, some ['z', 'z'], none⟩ ['z', 'z']).2.2.2 (by decide)⟩

/-- Claim C7: an unauthenticated caller is rejected with status 401 on
every operation of the surface, reads (movie list, movie detail) and
writes alike, and the store is left untouched. -/
theorem claim_C7_unauthenticated_rejected (op : Operation) (s : Store) :
    handle .anon op s = (s, ⟨401, .authError⟩) := by
  cases op <;> rfl

/-- Claim C8: a non-staff authenticated user POSTing a movie receives 403
and the store is unchanged; a staff user receives 201, the movie is
appended, and every submitted field — title, description, duration, genre
and actor associations — is stored as submitted. -/
theorem claim_C8_create_movie (u : Nat) (p : MoviePayload) (s : Store) :
    (handle (.regular u) (.createMovie p) s = (s, ⟨403, .fieldError .detailField⟩)) ∧
    ((handle (.staff u) (.createMovie p) s).2.status = 201) ∧
    ((handle (.staff u) (.createMovie p) s).1.movies
      = s.movies ++ [movieFromPayload s.movies.length p]) ∧
    ((movieFromPayload s.movies.length p).title = p.title) ∧
    ((movieFromPayload s.movies.length p).description = p.description) ∧
    ((movieFromPayload s.movies.length p).duration = p.duration) ∧
    ((movieFromPayload s.movies.length p).genres = p.genres) ∧
    ((movieFromPayload s.movies.length p).actors = p.actors) :=
  ⟨rfl, rfl, rfl, rfl, rfl, rfl, rfl, rfl⟩

/-- Claim C9: for an existing movie, uploading a valid JPEG through the
dedicated endpoint returns 200, the stored movie's image field is
populated, a subsequent detail read returns the movie with that image, and
uploading a non-image payload returns 400 leaving the store unchanged. -/
theorem claim_C9_image_upload (u mid : Nat) (s : Store) (m : Movie) (d t : Str)
    (h : findMovie s mid = some m) :
    ((handle (.staff u) (.uploadImage mid (.jpeg d)) s).2
      = ⟨200, .imageOf (some d)⟩) ∧
    (findMovie (handle (.staff u) (.uploadImage mid (.jpeg d)) s).1 mid
      = some { m with image := some d }) ∧
    ((handle (.staff u) (.retrieveMovie mid)
        (handle (.staff u) (.uploadImage mid (.jpeg d)) s).1).2
      = ⟨200, .movieDetail { m with image := some d }⟩) ∧
    (handle (.staff u) (.uploadImage mid (.notImage t)) s
      = (s, ⟨400, .fieldError .imageField⟩)) := by
  have hup : handle (.staff u) (.uploadImage mid (.jpeg d)) s
      = ({ s with movies := updateImage s.movies mid d }, ⟨200, .imageOf (some d)⟩) := by
    unfold handle
    dsimp only
    rw [h]
    rfl
  have hfind : findMovie { s with movies := updateImage s.movies mid d } mid
      = some { m with image := some d } := by
    show ((updateImage s.movies mid d).find? fun mv => mv.id == mid) = _
    rw [find?_updateImage]
    rw [show (s.movies.find? fun mv => mv.id == mid) = some m from h]
    rfl
  refine ⟨by rw [hup], ?_, ?_, ?_⟩
  · rw [hup]
    exact hfind
  · rw [hup]
    unfold handle
    dsimp only
    rw [hfind]
    rfl
  · unfold handle
    dsimp only
    rw [h]
    rfl

/-- Witness for claim C9: on the demo store, uploading a JPEG to movie 0
returns 200 and uploading a non-image returns 400. -/
theorem claim_C9_witness :
    findMovie demoStore 0 = some demoMovie ∧
    (handle (.staff 0) (.uploadImage 0 (.jpeg ['J'])) demoStore).2
      = ⟨200, .imageOf (some ['J'])⟩ ∧
    handle (.staff 0) (.uploadImage 0 (.notImage ['x'])) demoStore
      = (demoStore, ⟨400, .fieldError .imageField⟩) :=
  ⟨by decide,
   (claim_C9_image_upload 0 0 demoStore demoMovie ['J'] ['x'] (by decide)).1,
   (claim_C9_image_upload 0 0 demoStore demoMovie ['J'] ['x'] (by decide)).2.2.2⟩

/-- Claim C10: a create-movie request that carries image data alongside
the movie fields still creates the movie with status 201, but the created
movie's image field is unset — the generic endpoint never writes it. -/
theorem claim_C10_create_ignores_image (u : Nat) (p : MoviePayload) (s : Store) (d : Str)
    (h : p.image = some d) :
    ((handle (.staff u) (.createMovie p) s).2.status = 201) ∧
    ((handle (.staff u) (.createMovie p) s).1.movies
      = s.movies ++ [movieFromPayload s.movies.length p]) ∧
    ((movieFromPayload s.movies.length p).image = none) :=
  ⟨rfl, rfl, rfl⟩

/-- Witness for claim C10: the demo payload carries image data, yet the
created movie's image field is `none` and the creation returns 201. -/
theorem claim_C10_witness :
    demoMoviePayload.image = some ['J'] ∧
    (handle (.staff 0) (.createMovie demoMoviePayload) Store.empty).2.status = 201 ∧
    (movieFromPayload Store.empty.movies.length demoMoviePayload).image = none :=
  ⟨rfl,
   (claim_C10_create_ignores_image 0 demoMoviePayload Store.empty ['J'] rfl).1,
   (claim_C10_create_ignores_image 0 demoMoviePayload Store.empty ['J'] rfl).2.2⟩

end Cinema
